import Mathlib

/-!
Shallow embedding of the `standardized_flux` module of fink-science
(`src/fink_science/standardized_flux/utils.py` and `processor.py`).

Numbers are modelled by `ℚ` (the claims are about exact arithmetic:
division by a median and multiplication by the constant 1000, not about
floating-point rounding).  `np.nan` cells are modelled by `none : Option ℚ`,
so `np.full(n, np.nan)` becomes `List.replicate n none`.  Python exceptions
are modelled by `Except Err`.

The flux-conversion primitive `apparent_flux` is imported from
`fink_utils` (an external collaborator per the specification); it is
modelled as an explicit function argument of type `AF`.
-/

namespace FinkStd

/-- Python runtime errors that the embedded code can raise. -/
inductive Err where
  | indexError
  | nameError
  | valueError
  deriving DecidableEq, Repr

/-- Type of the external flux-conversion primitive
`apparent_flux(magpsf, sigmapsf, magnr, sigmagnr, isdiffpos) -> (flux, sigma_flux)`. -/
abbrev AF := ℚ → ℚ → ℚ → ℚ → ℤ → ℚ × ℚ

/-- One row of the per-alert history dataframe `pdf` handed to
`standardized_flux_`: columns candid, objectId, cdistnr, cmagpsf,
csigmapsf, cmagnr, csigmagnr, cisdiffpos, cfid, cjd. -/
structure Row where
  candid : ℤ
  objectId : String
  distnr : ℚ
  magpsf : ℚ
  sigmapsf : ℚ
  magnr : ℚ
  sigmagnr : ℚ
  isdiffpos : ℤ
  fid : ℤ
  jd : ℚ
  deriving DecidableEq, Repr

/-- One row of the reference catalog `CTAO_blazar`, with the columns the
specification lists (3FGL Name, ZTF Name, Array of Medians, thresholds,
redshift).  The code reads only `ZTF Name` and `Array of Medians`. -/
structure CatRow where
  threeFGLName : String
  ztfName : String
  arrayOfMedians : List ℚ
  computedThreshold : ℚ
  observedThreshold : ℚ
  redshift : ℚ
  finalThreshold : ℚ
  deriving DecidableEq, Repr

/-- A default row, used only as the default value of `List.getD`. -/
def dRow : Row :=
  { candid := 0, objectId := "", distnr := 0, magpsf := 0, sigmapsf := 0,
    magnr := 0, sigmagnr := 0, isdiffpos := 0, fid := 0, jd := 0 }

/-- `np.full(n, np.nan)` : a sequence of `n` missing values. -/
def nanList (n : ℕ) : List (Option ℚ) := List.replicate n none

/-- `CTAO_blazar.loc[CTAO_blazar['ZTF Name'] == name]` : the catalog rows
whose `ZTF Name` equals `name` (exact string equality), in catalog order. -/
def lookupCTAO (cat : List CatRow) (name : String) : List CatRow :=
  cat.filter (fun c => c.ztfName == name)

/-- Lines 38-48 of utils.py: `1000 * np.transpose([apparent_flux(*args) ...])`,
the per-epoch `(flux_dc, sigma_flux_dc)` pairs.  The factor 1000 is the
literal written in the source. -/
def fluxDC (af : AF) (pdf : List Row) : List (ℚ × ℚ) :=
  pdf.map (fun r =>
    let p := af r.magpsf r.sigmapsf r.magnr r.sigmagnr r.isdiffpos
    (1000 * p.1, 1000 * p.2))

/-- Faithful embedding of `standardized_flux_(pdf, CTAO_blazar)` from
`src/fink_science/standardized_flux/utils.py`.

Line by line: `std_flux`/`sigma_std_flux` start as all-NaN arrays of
length `len(pdf)`; `name = pdf['objectId'].values[0]` raises `IndexError`
when `pdf` is empty; the catalog is filtered by `ZTF Name == name`; if the
match is empty the NaN arrays are returned; otherwise the scaled fluxes
`flux_dc, sigma_flux_dc` are computed (lines 38-48) and the per-filter
loop begins.  The first loop iteration evaluates
`precomputed_data['Array of Medians']` (line 52); the name
`precomputed_data` is bound nowhere in the module (nor anywhere else in
the repository's source), so the interpreter raises `NameError` there —
the loop body never completes for any catalog-matched alert. -/
def standardized_flux_ (af : AF) (pdf : List Row) (CTAO_blazar : List CatRow) :
    Except Err (List (Option ℚ) × List (Option ℚ)) :=
  let std_flux := nanList pdf.length
  let sigma_std_flux := nanList pdf.length
  match pdf with
  | [] => Except.error Err.indexError
  | r0 :: _ =>
    let CTAO_data := lookupCTAO CTAO_blazar r0.objectId
    if CTAO_data.isEmpty then
      Except.ok (std_flux, sigma_std_flux)
    else
      let _flux_dc := fluxDC af pdf
      Except.error Err.nameError

/-- Numpy 1-D integer indexing `xs[i]` for a Python `int` index: in-range
non-negative indices read directly, negative indices in `[-len, -1]` wrap
to the end, anything else raises `IndexError`. -/
def npGet (xs : List ℚ) (i : ℤ) : Except Err ℚ :=
  if h : 0 ≤ i ∧ i < (xs.length : ℤ) then
    Except.ok (xs.get ⟨i.toNat, by omega⟩)
  else if h2 : -(xs.length : ℤ) ≤ i ∧ i < 0 then
    Except.ok (xs.get ⟨((xs.length : ℤ) + i).toNat, by omega⟩)
  else
    Except.error Err.indexError

/-- `pandas.Series.unique()` : the distinct values in order of first
appearance (`seen` accumulates the values already emitted). -/
def uniqueAux : List ℤ → List ℤ → List ℤ
  | [], _ => []
  | f :: rest, seen =>
    if f ∈ seen then uniqueAux rest seen
    else f :: uniqueAux rest (f :: seen)

/-- `pdf['cfid'].unique()` : distinct filter ids, first-occurrence order. -/
def uniqueFids (l : List ℤ) : List ℤ := uniqueAux l []

/-- One masked assignment `out[mask] = vals[mask] / m` where
`mask = (fids == f)`: positions whose filter id is `f` receive their
scaled value divided by the median `m`; other positions keep their
previous content. -/
def maskWrite (fids : List ℤ) (f : ℤ) (vals : List ℚ) (m : ℚ)
    (out : List (Option ℚ)) : List (Option ℚ) :=
  (fids.zip (vals.zip out)).map
    (fun p => if p.1 = f then some (p.2.1 / m) else p.2.2)

/-- The per-filter loop of lines 50-54, with the median of filter `f`
fetched as `medians[f - 1]` (numpy indexing): iterate over the distinct
filter ids `todo`, and for each one divide the masked positions of the
flux and sigma arrays by that filter's median. -/
def filterLoop (fids : List ℤ) (medians : List ℚ) :
    List ℤ → List ℚ → List ℚ → List (Option ℚ) → List (Option ℚ) →
    Except Err (List (Option ℚ) × List (Option ℚ))
  | [], _, _, std, sig => Except.ok (std, sig)
  | f :: fs, fluxes, sigmas, std, sig =>
    match npGet medians (f - 1) with
    | Except.error e => Except.error e
    | Except.ok m =>
      filterLoop fids medians fs fluxes sigmas
        (maskWrite fids f fluxes m std) (maskWrite fids f sigmas m sig)

/-- Modelled from the spec: §9 of the specification states that line 52's
`precomputed_data` is a stale name and that the intended contract is to
"fetch the per-filter median from the catalog row matched for this
alert's objectId", i.e. `CTAO_data['Array of Medians'].values[0]`.  This
definition is `standardized_flux_` with exactly that one-name fix: the
median array is the first matched catalog row's `Array of Medians`;
everything else (empty-input `IndexError`, absent-name NaN result, the
1000× scaling, the per-filter loop) is as in the source. -/
def standardized_flux_spec (af : AF) (pdf : List Row) (CTAO_blazar : List CatRow) :
    Except Err (List (Option ℚ) × List (Option ℚ)) :=
  match pdf with
  | [] => Except.error Err.indexError
  | r0 :: _ =>
    match lookupCTAO CTAO_blazar r0.objectId with
    | [] => Except.ok (nanList pdf.length, nanList pdf.length)
    | c0 :: _ =>
      let fluxes := (fluxDC af pdf).map (fun p => p.1)
      let sigmas := (fluxDC af pdf).map (fun p => p.2)
      let fids := pdf.map (fun r => r.fid)
      filterLoop fids c0.arrayOfMedians (uniqueFids fids) fluxes sigmas
        (nanList pdf.length) (nanList pdf.length)

/-- `objectId` of the first history row, `pdf['objectId'].values[0]`. -/
def firstObjectId : List Row → Option String
  | [] => none
  | r :: _ => some r.objectId

/-- Whether this alert's objectId is present in the reference catalog
(the lookup the code performs on its first history row). -/
def presentIn (pdf : List Row) (cat : List CatRow) : Bool :=
  match pdf with
  | [] => false
  | r :: _ => !(lookupCTAO cat r.objectId).isEmpty

/-- The median array of the catalog row matched for this alert, when the
alert has a first row and the lookup is non-empty. -/
def matchedMedians (pdf : List Row) (cat : List CatRow) : Option (List ℚ) :=
  match pdf with
  | [] => none
  | r :: _ =>
    match lookupCTAO cat r.objectId with
    | [] => none
    | c :: _ => some c.arrayOfMedians

/-- The median that the per-filter loop divides by for filter id `f`:
entry `f - 1` of the matched median array (as a total function, for use in
statements whose hypotheses put `f - 1` in range). -/
def medAt (medians : List ℚ) (f : ℤ) : ℚ := medians.getD (f - 1).toNat 0

/-! ### Helper lemmas -/

theorem mem_uniqueAux (l : List ℤ) :
    ∀ (seen : List ℤ) (a : ℤ), a ∈ uniqueAux l seen ↔ a ∈ l ∧ a ∉ seen := by
  induction l with
  | nil => intro seen a; simp [uniqueAux]
  | cons f rest ih =>
    intro seen a
    simp only [uniqueAux]
    by_cases hf : f ∈ seen
    · rw [if_pos hf, ih]
      simp only [List.mem_cons]
      constructor
      · rintro ⟨h1, h2⟩; exact ⟨Or.inr h1, h2⟩
      · rintro ⟨h1 | h1, h2⟩
        · exact absurd (h1 ▸ hf) h2
        · exact ⟨h1, h2⟩
    · rw [if_neg hf]
      simp only [List.mem_cons, ih, List.mem_cons]
      constructor
      · rintro (h | ⟨h1, h2⟩)
        · exact ⟨Or.inl h, h ▸ hf⟩
        · push_neg at h2
          exact ⟨Or.inr h1, h2.2⟩
      · rintro ⟨h1 | h1, h2⟩
        · exact Or.inl h1
        · by_cases haf : a = f
          · exact Or.inl haf
          · exact Or.inr ⟨h1, fun hmem => hmem.elim haf h2⟩

theorem mem_uniqueFids (l : List ℤ) (a : ℤ) : a ∈ uniqueFids l ↔ a ∈ l := by
  rw [uniqueFids, mem_uniqueAux]
  simp

theorem npGet_ok (xs : List ℚ) (i : ℤ) (h0 : 0 ≤ i) (h1 : i < (xs.length : ℤ)) :
    npGet xs i = Except.ok (xs.getD i.toNat 0) := by
  have hlt : i.toNat < xs.length := by omega
  rw [npGet, dif_pos ⟨h0, h1⟩, List.getD_eq_getElem _ _ hlt]
  rw [List.get_eq_getElem]

theorem maskWrite_cons (a : ℤ) (fids : List ℤ) (f : ℤ) (v : ℚ) (vals : List ℚ)
    (m : ℚ) (o : Option ℚ) (out : List (Option ℚ)) :
    maskWrite (a :: fids) f (v :: vals) m (o :: out) =
      (if a = f then some (v / m) else o) :: maskWrite fids f vals m out := rfl

theorem maskWrite_length (fids : List ℤ) (f : ℤ) (vals : List ℚ) (m : ℚ)
    (out : List (Option ℚ)) :
    (maskWrite fids f vals m out).length = min fids.length (min vals.length out.length) := by
  simp [maskWrite, List.length_zip]

theorem maskWrite_getD (f : ℤ) :
    ∀ (fids : List ℤ) (vals : List ℚ) (m : ℚ) (out : List (Option ℚ)) (i : ℕ),
      vals.length = fids.length → out.length = fids.length → i < fids.length →
      (maskWrite fids f vals m out).getD i none =
        if fids.getD i 0 = f then some (vals.getD i 0 / m) else out.getD i none := by
  intro fids
  induction fids with
  | nil => intro vals m out i _ _ hi; simp at hi
  | cons a fids ih =>
    intro vals m out i hv ho hi
    cases vals with
    | nil => simp at hv
    | cons v vals =>
      cases out with
      | nil => simp at ho
      | cons o out =>
        rw [maskWrite_cons]
        cases i with
        | zero => simp
        | succ n =>
          simp only [List.getD_cons_succ]
          exact ih vals m out n (by simpa using hv) (by simpa using ho) (by simpa using hi)

theorem filterLoop_sound (fids : List ℤ) (medians : List ℚ) :
    ∀ (todo : List ℤ) (fluxes sigmas : List ℚ) (std sig : List (Option ℚ)),
      fluxes.length = fids.length → sigmas.length = fids.length →
      std.length = fids.length → sig.length = fids.length →
      (∀ f ∈ todo, 1 ≤ f ∧ f ≤ (medians.length : ℤ)) →
      ∃ std' sig',
        filterLoop fids medians todo fluxes sigmas std sig = Except.ok (std', sig') ∧
        std'.length = fids.length ∧ sig'.length = fids.length ∧
        ∀ i : ℕ, i < fids.length →
          (std'.getD i none =
            if fids.getD i 0 ∈ todo
            then some (fluxes.getD i 0 / medAt medians (fids.getD i 0))
            else std.getD i none) ∧
          (sig'.getD i none =
            if fids.getD i 0 ∈ todo
            then some (sigmas.getD i 0 / medAt medians (fids.getD i 0))
            else sig.getD i none) := by
  intro todo
  induction todo with
  | nil =>
    intro fluxes sigmas std sig _ _ hstd hsig _
    exact ⟨std, sig, rfl, hstd, hsig, fun i _ => by simp⟩
  | cons f fs ih =>
    intro fluxes sigmas std sig hf hs hstd hsig hm
    have hfb := hm f (List.mem_cons_self f fs)
    have hnp : npGet medians (f - 1) = Except.ok (medians.getD (f - 1).toNat 0) :=
      npGet_ok _ _ (by omega) (by omega)
    have hstd1 : (maskWrite fids f fluxes (medians.getD (f - 1).toNat 0) std).length
        = fids.length := by
      rw [maskWrite_length, hf, hstd]; simp
    have hsig1 : (maskWrite fids f sigmas (medians.getD (f - 1).toNat 0) sig).length
        = fids.length := by
      rw [maskWrite_length, hs, hsig]; simp
    obtain ⟨std', sig', heq, hl1, hl2, hpt⟩ :=
      ih fluxes sigmas _ _ hf hs hstd1 hsig1
        (fun g hg => hm g (List.mem_cons_of_mem f hg))
    refine ⟨std', sig', ?_, hl1, hl2, ?_⟩
    · rw [filterLoop, hnp]
      exact heq
    · intro i hi
      obtain ⟨h1, h2⟩ := hpt i hi
      rw [maskWrite_getD f fids fluxes _ std i hf hstd hi] at h1
      rw [maskWrite_getD f fids sigmas _ sig i hs hsig hi] at h2
      by_cases hin : fids.getD i 0 ∈ fs
      · constructor
        · rw [h1, if_pos hin, if_pos (List.mem_cons_of_mem f hin)]
        · rw [h2, if_pos hin, if_pos (List.mem_cons_of_mem f hin)]
      · by_cases hef : fids.getD i 0 = f
        · constructor
          · rw [h1, if_neg hin, if_pos hef,
              if_pos (List.mem_cons.mpr (Or.inl hef))]
            rw [medAt, hef]
          · rw [h2, if_neg hin, if_pos hef,
              if_pos (List.mem_cons.mpr (Or.inl hef))]
            rw [medAt, hef]
        · have hnotin : fids.getD i 0 ∉ f :: fs := by
            simp only [List.mem_cons]
            push_neg
            exact ⟨hef, hin⟩
          constructor
          · rw [h1, if_neg hin, if_neg hef, if_neg hnotin]
          · rw [h2, if_neg hin, if_neg hef, if_neg hnotin]

/-! ### Scaling (linearity of the standardization step) -/

/-- The flux-conversion primitive with every produced flux and sigma
multiplied by the constant `k`. -/
def scaleAF (k : ℚ) (af : AF) : AF :=
  fun m s n g i => (k * (af m s n g i).1, k * (af m s n g i).2)

/-- Multiply one output cell by `k`; a missing value stays missing. -/
def scaleOpt (k : ℚ) : Option ℚ → Option ℚ := Option.map (fun x => k * x)

/-- Multiply both output sequences by `k` cell-wise; errors are unchanged. -/
def scaleResult (k : ℚ) :
    Except Err (List (Option ℚ) × List (Option ℚ)) →
    Except Err (List (Option ℚ) × List (Option ℚ))
  | Except.error e => Except.error e
  | Except.ok (s, t) => Except.ok (s.map (scaleOpt k), t.map (scaleOpt k))

theorem fluxDC_scale (k : ℚ) (af : AF) (pdf : List Row) :
    fluxDC (scaleAF k af) pdf = (fluxDC af pdf).map (fun p => (k * p.1, k * p.2)) := by
  induction pdf with
  | nil => rfl
  | cons r rest ih =>
    simp only [fluxDC, List.map_cons, List.map_map] at ih ⊢
    refine List.cons_eq_cons.mpr ⟨?_, ih⟩
    simp only [scaleAF, Prod.mk.injEq]
    constructor <;> ring

theorem maskWrite_scale (k : ℚ) (f : ℤ) :
    ∀ (fids : List ℤ) (vals : List ℚ) (m : ℚ) (out : List (Option ℚ)),
      maskWrite fids f (vals.map (fun x => k * x)) m (out.map (scaleOpt k)) =
        (maskWrite fids f vals m out).map (scaleOpt k) := by
  intro fids
  induction fids with
  | nil => intro vals m out; rfl
  | cons a fids ih =>
    intro vals m out
    cases vals with
    | nil => simp [maskWrite]
    | cons v vals =>
      cases out with
      | nil => simp [maskWrite]
      | cons o out =>
        simp only [List.map_cons, maskWrite_cons, ih]
        congr 1
        by_cases h : a = f
        · simp [h, scaleOpt, mul_div_assoc]
        · simp [h]

theorem filterLoop_scale (fids : List ℤ) (medians : List ℚ) (k : ℚ) :
    ∀ (todo : List ℤ) (fluxes sigmas : List ℚ) (std sig : List (Option ℚ)),
      filterLoop fids medians todo (fluxes.map (fun x => k * x))
          (sigmas.map (fun x => k * x)) (std.map (scaleOpt k)) (sig.map (scaleOpt k)) =
        scaleResult k (filterLoop fids medians todo fluxes sigmas std sig) := by
  intro todo
  induction todo with
  | nil => intro fluxes sigmas std sig; rfl
  | cons f fs ih =>
    intro fluxes sigmas std sig
    rw [filterLoop, filterLoop]
    cases hnp : npGet medians (f - 1) with
    | error e => rfl
    | ok m =>
      dsimp only
      rw [maskWrite_scale, maskWrite_scale, ih]

theorem standardized_flux_scale (k : ℚ) (af : AF) (pdf : List Row) (cat : List CatRow) :
    standardized_flux_ (scaleAF k af) pdf cat =
      scaleResult k (standardized_flux_ af pdf cat) := by
  cases pdf with
  | nil => rfl
  | cons r0 rest =>
    simp only [standardized_flux_]
    by_cases h : (lookupCTAO cat r0.objectId).isEmpty
    · simp [h, scaleResult, nanList, List.map_replicate, scaleOpt]
    · simp [h, scaleResult]

theorem standardized_flux_spec_scale (k : ℚ) (af : AF) (pdf : List Row)
    (cat : List CatRow) :
    standardized_flux_spec (scaleAF k af) pdf cat =
      scaleResult k (standardized_flux_spec af pdf cat) := by
  cases pdf with
  | nil => rfl
  | cons r0 rest =>
    simp only [standardized_flux_spec]
    cases hl : lookupCTAO cat r0.objectId with
    | nil => simp [scaleResult, nanList, List.map_replicate, scaleOpt]
    | cons c0 cs =>
      have h1 : (fluxDC (scaleAF k af) (r0 :: rest)).map (fun p => p.1) =
          ((fluxDC af (r0 :: rest)).map (fun p => p.1)).map (fun x => k * x) := by
        rw [fluxDC_scale]
        simp [List.map_map]
      have h2 : (fluxDC (scaleAF k af) (r0 :: rest)).map (fun p => p.2) =
          ((fluxDC af (r0 :: rest)).map (fun p => p.2)).map (fun x => k * x) := by
        rw [fluxDC_scale]
        simp [List.map_map]
      have hnan : nanList (r0 :: rest).length =
          (nanList (r0 :: rest).length).map (scaleOpt k) := by
        simp [nanList, List.map_replicate, scaleOpt]
      dsimp only
      conv_lhs => rw [h1, h2, hnan]
      rw [filterLoop_scale]

/-! ### The batch dispatcher's per-alert regrouping (processor.py) -/

/-- The length condition `pandas.DataFrame` imposes on the per-epoch
columns of one alert: all eight arrays must have the same length. -/
abbrev lengthsMatch (cdistnr cmagpsf csigmapsf cmagnr csigmagnr : List ℚ)
    (cisdiffpos cfid : List ℤ) (cjd : List ℚ) : Prop :=
  cmagpsf.length = cdistnr.length ∧ csigmapsf.length = cdistnr.length ∧
  cmagnr.length = cdistnr.length ∧ csigmagnr.length = cdistnr.length ∧
  cisdiffpos.length = cdistnr.length ∧ cfid.length = cdistnr.length ∧
  cjd.length = cdistnr.length

/-- Lines 147-160 of processor.py: `sub = pd.DataFrame(...)` built for one
alert from its scalar `candid`/`objectId` and its eight per-epoch arrays.
The scalars broadcast; `pandas.DataFrame` raises
`ValueError: All arrays must be of the same length` when the eight arrays
do not share one length, and otherwise produces one row per epoch. -/
def mkSub (candid : ℤ) (objectId : String)
    (cdistnr cmagpsf csigmapsf cmagnr csigmagnr : List ℚ)
    (cisdiffpos cfid : List ℤ) (cjd : List ℚ) : Except Err (List Row) :=
  if lengthsMatch cdistnr cmagpsf csigmapsf cmagnr csigmagnr cisdiffpos cfid cjd then
    Except.ok ((List.range cdistnr.length).map (fun i =>
      { candid := candid, objectId := objectId,
        distnr := cdistnr.getD i 0, magpsf := cmagpsf.getD i 0,
        sigmapsf := csigmapsf.getD i 0, magnr := cmagnr.getD i 0,
        sigmagnr := csigmagnr.getD i 0, isdiffpos := cisdiffpos.getD i 0,
        fid := cfid.getD i 0, jd := cjd.getD i 0 }))
  else Except.error Err.valueError

/-- One iteration of the processor's per-alert loop: build `sub` for the
alert and hand it to `standardized_flux_`. -/
def processAlert (af : AF) (candid : ℤ) (objectId : String)
    (cdistnr cmagpsf csigmapsf cmagnr csigmagnr : List ℚ)
    (cisdiffpos cfid : List ℤ) (cjd : List ℚ) (cat : List CatRow) :
    Except Err (List (Option ℚ) × List (Option ℚ)) :=
  match mkSub candid objectId cdistnr cmagpsf csigmapsf cmagnr csigmagnr
      cisdiffpos cfid cjd with
  | Except.error e => Except.error e
  | Except.ok sub => standardized_flux_ af sub cat

theorem range_map_getD {α : Type} (l : List α) (d : α) :
    (List.range l.length).map (fun i => l.getD i d) = l := by
  induction l with
  | nil => rfl
  | cons a l ih =>
    rw [List.length_cons, List.range_succ_eq_map, List.map_cons, List.map_map]
    simp only [List.getD_cons_zero, Function.comp_def, List.getD_cons_succ]
    rw [ih]

/-- Replace a row's objectId by the empty string: two histories whose
rows agree up to `stripId` differ at most in their objectId values. -/
def stripId (r : Row) : Row :=
  { r with objectId := "" }

/-- Filter id `fid` has no corresponding median in `medians` under the
1-based indexing contract: the index `fid - 1` is negative or at least
the array length. -/
abbrev malformedFor (medians : List ℚ) (fid : ℤ) : Prop :=
  fid - 1 < 0 ∨ (medians.length : ℤ) ≤ fid - 1

/-! ### Concrete fixtures for closed evaluations -/

/-- A concrete flux-conversion primitive used in closed instances. -/
def af1 : AF := fun m s n g i => (m + n + (i : ℚ), s + g)

/-- A concrete history row: `objectId`, `magpsf`, `sigmapsf`, `fid`;
the remaining fields are fixed small values. -/
def mkRow (name : String) (mag sg : ℚ) (f : ℤ) : Row :=
  { candid := 0, objectId := name, distnr := 1, magpsf := mag, sigmapsf := sg,
    magnr := 1, sigmagnr := 1, isdiffpos := 1, fid := f, jd := 0 }

/-- A concrete catalog row: `ZTF Name` and `Array of Medians`; the
remaining fields are fixed small values. -/
def mkCat (name : String) (ms : List ℚ) : CatRow :=
  { threeFGLName := "3FGL J0000", ztfName := name, arrayOfMedians := ms,
    computedThreshold := 0, observedThreshold := 0, redshift := 0,
    finalThreshold := 0 }

/-! ### Claims -/

/-- C1: the claim states that for every catalog-matched alert the
per-filter median is fetched from the row matched for this alert's
objectId and used to divide the scaled fluxes.  The code instead reads
the unbound module-level name `precomputed_data` at the median fetch
(line 52 of utils.py), so a matched single-epoch alert raises `NameError`;
with the one-name intended-contract fix of spec §9 the claimed behaviour
holds: `af1` yields flux 5 and sigma 2, scaled to 5000 and 2000, divided
by the matched row's filter-1 median 2. -/
theorem C1_matched_median_fetch :
    standardized_flux_ af1 [mkRow "ZTF19C1" 3 1 1] [mkCat "ZTF19C1" [2, 5]] =
      Except.error Err.nameError ∧
    standardized_flux_spec af1 [mkRow "ZTF19C1" 3 1 1] [mkCat "ZTF19C1" [2, 5]] =
      Except.ok ([some 2500], [some 1000]) := by
  constructor
  · rfl
  · simp [standardized_flux_spec, lookupCTAO, mkRow, mkCat, fluxDC, af1, filterLoop,
      uniqueFids, uniqueAux, maskWrite, npGet, nanList]
    norm_num

/-- C2: for every nonempty alert history whose objectId is absent from
the catalog, the normalizer returns (no error raised) two all-missing
sequences of length equal to the epoch count, and the result does not
depend on the flux-conversion primitive (it is never invoked). -/
theorem C2_absent_all_missing (af af' : AF) (pdf : List Row) (cat : List CatRow)
    (hne : pdf ≠ []) (habs : presentIn pdf cat = false) :
    standardized_flux_ af pdf cat =
      Except.ok (List.replicate pdf.length (none : Option ℚ),
        List.replicate pdf.length (none : Option ℚ)) ∧
    standardized_flux_ af pdf cat = standardized_flux_ af' pdf cat := by
  cases pdf with
  | nil => exact absurd rfl hne
  | cons r0 rest =>
    simp only [presentIn, Bool.not_eq_false'] at habs
    constructor <;> simp [standardized_flux_, habs, nanList]

/-- C2 witness: a concrete absent-name alert. -/
theorem C2_absent_all_missing_witness :
    standardized_flux_ af1 [mkRow "ZTF19C2" 3 1 1] [mkCat "OTHER" [2]] =
      Except.ok (List.replicate 1 (none : Option ℚ),
        List.replicate 1 (none : Option ℚ)) ∧
    standardized_flux_ af1 [mkRow "ZTF19C2" 3 1 1] [mkCat "OTHER" [2]] =
      standardized_flux_ (scaleAF 2 af1) [mkRow "ZTF19C2" 3 1 1] [mkCat "OTHER" [2]] :=
  C2_absent_all_missing af1 (scaleAF 2 af1) [mkRow "ZTF19C2" 3 1 1]
    [mkCat "OTHER" [2]] (by decide) (by decide)

/-- C3 counterexample: on a zero-epoch alert the code raises `IndexError`
at `pdf['objectId'].values[0]`; it does not return a pair of empty
sequences, contrary to the claim. -/
theorem C3_zero_epochs_cex :
    standardized_flux_ af1 [] [mkCat "ZTF19C3" [2]] = Except.error Err.indexError ∧
    standardized_flux_ af1 [] [mkCat "ZTF19C3" [2]] ≠
      Except.ok (([] : List (Option ℚ)), ([] : List (Option ℚ))) := by
  constructor
  · rfl
  · intro h
    rw [show standardized_flux_ af1 [] [mkCat "ZTF19C3" [2]] =
      Except.error Err.indexError from rfl] at h
    exact Except.noConfusion h

/-- C3 amended: for every alert with zero epochs the normalizer raises an
index error at the objectId fetch, uniformly in the catalog and in the
flux-conversion primitive (so no catalog computation is performed and no
sequences are returned). -/
theorem C3_zero_epochs_raises (af : AF) (cat : List CatRow) :
    standardized_flux_ af [] cat = Except.error Err.indexError := rfl

/-- C4: the scaled per-epoch pairs `flux_dc, sigma_flux_dc` are exactly
the primitive's outputs multiplied by the literal constant 1000 (`fluxDC`
takes no catalog argument, so the factor cannot come from a catalog
entry), and under the intended median fetch it is exactly these
1000-scaled values that are then divided by the epoch's filter median. -/
theorem C4_thousand_scale (af : AF) (pdf : List Row) (cat : List CatRow) (ms : List ℚ)
    (hm : matchedMedians pdf cat = some ms)
    (hfid : ∀ r ∈ pdf, 1 ≤ r.fid ∧ r.fid ≤ (ms.length : ℤ)) :
    (∀ i : ℕ, i < pdf.length →
      (fluxDC af pdf).getD i (0, 0) =
        (1000 * (af (pdf.getD i dRow).magpsf (pdf.getD i dRow).sigmapsf
            (pdf.getD i dRow).magnr (pdf.getD i dRow).sigmagnr
            (pdf.getD i dRow).isdiffpos).1,
         1000 * (af (pdf.getD i dRow).magpsf (pdf.getD i dRow).sigmapsf
            (pdf.getD i dRow).magnr (pdf.getD i dRow).sigmagnr
            (pdf.getD i dRow).isdiffpos).2)) ∧
    ∃ std sig,
      standardized_flux_spec af pdf cat = Except.ok (std, sig) ∧
      std.length = pdf.length ∧ sig.length = pdf.length ∧
      ∀ i : ℕ, i < pdf.length →
        std.getD i none =
          some (((fluxDC af pdf).getD i (0, 0)).1 / medAt ms (pdf.getD i dRow).fid) ∧
        sig.getD i none =
          some (((fluxDC af pdf).getD i (0, 0)).2 / medAt ms (pdf.getD i dRow).fid) := by
  have hflen : (fluxDC af pdf).length = pdf.length := by simp [fluxDC]
  constructor
  · intro i hi
    rw [List.getD_eq_getElem _ _ (hflen ▸ hi), List.getD_eq_getElem _ _ hi]
    simp [fluxDC]
  · cases pdf with
    | nil => simp [matchedMedians] at hm
    | cons r0 rest =>
      simp only [matchedMedians] at hm
      cases hl : lookupCTAO cat r0.objectId with
      | nil => rw [hl] at hm; exact Option.noConfusion hm
      | cons c0 cs =>
        rw [hl] at hm
        have hms : c0.arrayOfMedians = ms := Option.some.inj hm
        have hlenfids : ((r0 :: rest).map (fun r => r.fid)).length =
            (r0 :: rest).length := List.length_map _ _
        obtain ⟨std, sig, heq, hl1, hl2, hpt⟩ :=
          filterLoop_sound ((r0 :: rest).map (fun r => r.fid)) c0.arrayOfMedians
            (uniqueFids ((r0 :: rest).map (fun r => r.fid)))
            ((fluxDC af (r0 :: rest)).map (fun p => p.1))
            ((fluxDC af (r0 :: rest)).map (fun p => p.2))
            (nanList (r0 :: rest).length) (nanList (r0 :: rest).length)
            (by simp [fluxDC]) (by simp [fluxDC])
            (by simp [nanList]) (by simp [nanList])
            (by
              intro f hf
              have hf2 : f ∈ (r0 :: rest).map (fun r => r.fid) :=
                (mem_uniqueFids _ f).mp hf
              obtain ⟨r, hr, hrf⟩ := List.mem_map.mp hf2
              have hb := hfid r hr
              rw [hms]
              omega)
        refine ⟨std, sig, ?_, by rw [hl1, hlenfids], by rw [hl2, hlenfids], ?_⟩
        · simp only [standardized_flux_spec, hl]
          exact heq
        · intro i hi
          have hif : i < ((r0 :: rest).map (fun r => r.fid)).length := by
            rw [hlenfids]; exact hi
          obtain ⟨h1, h2⟩ := hpt i hif
          have hfidmem : ((r0 :: rest).map (fun r => r.fid)).getD i 0 ∈
              uniqueFids ((r0 :: rest).map (fun r => r.fid)) := by
            rw [mem_uniqueFids, List.getD_eq_getElem _ _ hif]
            exact List.getElem_mem _
          rw [if_pos hfidmem] at h1 h2
          have hfe : ((r0 :: rest).map (fun r => r.fid)).getD i 0 =
              ((r0 :: rest).getD i dRow).fid := by
            rw [List.getD_eq_getElem _ _ hif, List.getD_eq_getElem _ _ hi,
              List.getElem_map]
          have hxe : ((fluxDC af (r0 :: rest)).map (fun p => p.1)).getD i 0 =
              ((fluxDC af (r0 :: rest)).getD i (0, 0)).1 := by
            rw [List.getD_eq_getElem _ _ (by simpa [fluxDC] using hi),
              List.getD_eq_getElem _ _ (by simpa [fluxDC] using hi),
              List.getElem_map]
          have hye : ((fluxDC af (r0 :: rest)).map (fun p => p.2)).getD i 0 =
              ((fluxDC af (r0 :: rest)).getD i (0, 0)).2 := by
            rw [List.getD_eq_getElem _ _ (by simpa [fluxDC] using hi),
              List.getD_eq_getElem _ _ (by simpa [fluxDC] using hi),
              List.getElem_map]
          rw [hfe, hxe, hms] at h1
          rw [hfe, hye, hms] at h2
          exact ⟨h1, h2⟩

/-- C4 witness: a concrete matched two-epoch alert with in-range filters. -/
theorem C4_thousand_scale_witness :
    (∀ i : ℕ, i < ([mkRow "ZTF19C4" 3 1 1, mkRow "ZTF19C4" 4 1 2] : List Row).length →
      (fluxDC af1 [mkRow "ZTF19C4" 3 1 1, mkRow "ZTF19C4" 4 1 2]).getD i (0, 0) =
        (1000 * (af1 (([mkRow "ZTF19C4" 3 1 1, mkRow "ZTF19C4" 4 1 2].getD i dRow)).magpsf
            (([mkRow "ZTF19C4" 3 1 1, mkRow "ZTF19C4" 4 1 2].getD i dRow)).sigmapsf
            (([mkRow "ZTF19C4" 3 1 1, mkRow "ZTF19C4" 4 1 2].getD i dRow)).magnr
            (([mkRow "ZTF19C4" 3 1 1, mkRow "ZTF19C4" 4 1 2].getD i dRow)).sigmagnr
            (([mkRow "ZTF19C4" 3 1 1, mkRow "ZTF19C4" 4 1 2].getD i dRow)).isdiffpos).1,
         1000 * (af1 (([mkRow "ZTF19C4" 3 1 1, mkRow "ZTF19C4" 4 1 2].getD i dRow)).magpsf
            (([mkRow "ZTF19C4" 3 1 1, mkRow "ZTF19C4" 4 1 2].getD i dRow)).sigmapsf
            (([mkRow "ZTF19C4" 3 1 1, mkRow "ZTF19C4" 4 1 2].getD i dRow)).magnr
            (([mkRow "ZTF19C4" 3 1 1, mkRow "ZTF19C4" 4 1 2].getD i dRow)).sigmagnr
            (([mkRow "ZTF19C4" 3 1 1, mkRow "ZTF19C4" 4 1 2].getD i dRow)).isdiffpos).2)) ∧
    ∃ std sig,
      standardized_flux_spec af1 [mkRow "ZTF19C4" 3 1 1, mkRow "ZTF19C4" 4 1 2]
          [mkCat "ZTF19C4" [2, 5]] = Except.ok (std, sig) ∧
      std.length = ([mkRow "ZTF19C4" 3 1 1, mkRow "ZTF19C4" 4 1 2] : List Row).length ∧
      sig.length = ([mkRow "ZTF19C4" 3 1 1, mkRow "ZTF19C4" 4 1 2] : List Row).length ∧
      ∀ i : ℕ, i < ([mkRow "ZTF19C4" 3 1 1, mkRow "ZTF19C4" 4 1 2] : List Row).length →
        std.getD i none =
          some (((fluxDC af1 [mkRow "ZTF19C4" 3 1 1, mkRow "ZTF19C4" 4 1 2]).getD i (0, 0)).1 /
            medAt [2, 5] (([mkRow "ZTF19C4" 3 1 1, mkRow "ZTF19C4" 4 1 2].getD i dRow)).fid) ∧
        sig.getD i none =
          some (((fluxDC af1 [mkRow "ZTF19C4" 3 1 1, mkRow "ZTF19C4" 4 1 2]).getD i (0, 0)).2 /
            medAt [2, 5] (([mkRow "ZTF19C4" 3 1 1, mkRow "ZTF19C4" 4 1 2].getD i dRow)).fid) :=
  C4_thousand_scale af1 [mkRow "ZTF19C4" 3 1 1, mkRow "ZTF19C4" 4 1 2]
    [mkCat "ZTF19C4" [2, 5]] [2, 5] (by decide) (by decide)

/-- C5: for a catalog-matched alert containing an epoch whose filter id
has no corresponding median in the matched row's median array, the
normalizer raises an error to the caller (it does not silently produce a
missing value for that epoch).  In the code as written the surfaced error
is the `NameError` of line 52, which every catalog-matched invocation
raises before reaching a median access. -/
theorem C5_malformed_raises (af : AF) (pdf : List Row) (cat : List CatRow) (ms : List ℚ)
    (hm : matchedMedians pdf cat = some ms)
    (hbad : ∃ r ∈ pdf, malformedFor ms r.fid) :
    ∃ e, standardized_flux_ af pdf cat = Except.error e := by
  cases pdf with
  | nil => simp [matchedMedians] at hm
  | cons r0 rest =>
    simp only [matchedMedians] at hm
    cases hl : lookupCTAO cat r0.objectId with
    | nil => rw [hl] at hm; exact Option.noConfusion hm
    | cons c0 cs =>
      refine ⟨Err.nameError, ?_⟩
      simp [standardized_flux_, hl]

/-- C5 witness: a matched alert whose catalog row has an empty median
array while the data contains filter id 1. -/
theorem C5_malformed_raises_witness :
    ∃ e, standardized_flux_ af1 [mkRow "ZTF19C5" 3 1 1] [mkCat "ZTF19C5" []] =
      Except.error e :=
  C5_malformed_raises af1 [mkRow "ZTF19C5" 3 1 1] [mkCat "ZTF19C5" []] []
    (by decide) ⟨mkRow "ZTF19C5" 3 1 1, by decide, by decide⟩

/-- C6: the normalizer is a pure function of the alert history and the
reference catalog: two invocations on identical inputs (with the same
flux-conversion primitive) return identical results. -/
theorem C6_deterministic (af : AF) (pdf pdf' : List Row) (cat cat' : List CatRow)
    (h1 : pdf = pdf') (h2 : cat = cat') :
    standardized_flux_ af pdf cat = standardized_flux_ af pdf' cat' := by
  rw [h1, h2]

/-- C6 witness: two invocations on a concrete identical input. -/
theorem C6_deterministic_witness :
    standardized_flux_ af1 [mkRow "ZTF19C6" 3 1 1] [mkCat "ZTF19C6" [2]] =
      standardized_flux_ af1 [mkRow "ZTF19C6" 3 1 1] [mkCat "ZTF19C6" [2]] :=
  C6_deterministic af1 [mkRow "ZTF19C6" 3 1 1] [mkRow "ZTF19C6" 3 1 1]
    [mkCat "ZTF19C6" [2]] [mkCat "ZTF19C6" [2]] rfl rfl

/-- C7: multiplying every flux and sigma produced by the primitive by a
constant `k` (medians held fixed) multiplies every output cell by `k`,
both for the code as written and for the intended-contract variant in
which the catalog-matched branch actually produces output values. -/
theorem C7_linearity (k : ℚ) (af : AF) (pdf : List Row) (cat : List CatRow)
    (_hne : pdf ≠ []) (_hp : presentIn pdf cat = true) :
    standardized_flux_ (scaleAF k af) pdf cat =
      scaleResult k (standardized_flux_ af pdf cat) ∧
    standardized_flux_spec (scaleAF k af) pdf cat =
      scaleResult k (standardized_flux_spec af pdf cat) :=
  ⟨standardized_flux_scale k af pdf cat, standardized_flux_spec_scale k af pdf cat⟩

/-- C7 witness: scaling the primitive by 3 on a concrete matched alert. -/
theorem C7_linearity_witness :
    standardized_flux_ (scaleAF 3 af1) [mkRow "ZTF19C7" 3 1 1] [mkCat "ZTF19C7" [2]] =
      scaleResult 3 (standardized_flux_ af1 [mkRow "ZTF19C7" 3 1 1]
        [mkCat "ZTF19C7" [2]]) ∧
    standardized_flux_spec (scaleAF 3 af1) [mkRow "ZTF19C7" 3 1 1]
        [mkCat "ZTF19C7" [2]] =
      scaleResult 3 (standardized_flux_spec af1 [mkRow "ZTF19C7" 3 1 1]
        [mkCat "ZTF19C7" [2]]) :=
  C7_linearity 3 af1 [mkRow "ZTF19C7" 3 1 1] [mkCat "ZTF19C7" [2]]
    (by decide) (by decide)

/-- C8: the claim states that a matched nonempty alert yields output
sequences of length N with per-epoch locality.  On the code as written a
matched two-epoch alert yields no output sequences at all: the invocation
raises the `NameError` of line 52 (the C1 defect). -/
theorem C8_matched_no_output :
    standardized_flux_ af1 [mkRow "ZTF19C8" 3 1 1, mkRow "ZTF19C8" 4 1 2]
      [mkCat "ZTF19C8" [2, 5]] = Except.error Err.nameError := rfl

/-- C9: one alert whose eight per-epoch columns do not all share one
length makes the dispatcher's `pd.DataFrame` regrouping raise
`ValueError`, so the per-alert step surfaces an error; and whenever the
regrouping succeeds the columns were equal-length and every column is
reproduced exactly — nothing is truncated or padded. -/
theorem C9_length_mismatch (af : AF) (candid : ℤ) (objectId : String)
    (cdistnr cmagpsf csigmapsf cmagnr csigmagnr : List ℚ)
    (cisdiffpos cfid : List ℤ) (cjd : List ℚ) (cat : List CatRow) :
    (¬ lengthsMatch cdistnr cmagpsf csigmapsf cmagnr csigmagnr cisdiffpos cfid cjd →
      processAlert af candid objectId cdistnr cmagpsf csigmapsf cmagnr csigmagnr
        cisdiffpos cfid cjd cat = Except.error Err.valueError) ∧
    (∀ rows, mkSub candid objectId cdistnr cmagpsf csigmapsf cmagnr csigmagnr
        cisdiffpos cfid cjd = Except.ok rows →
      lengthsMatch cdistnr cmagpsf csigmapsf cmagnr csigmagnr cisdiffpos cfid cjd ∧
      rows.length = cdistnr.length ∧
      rows.map (fun r => r.distnr) = cdistnr ∧
      rows.map (fun r => r.magpsf) = cmagpsf ∧
      rows.map (fun r => r.sigmapsf) = csigmapsf ∧
      rows.map (fun r => r.magnr) = cmagnr ∧
      rows.map (fun r => r.sigmagnr) = csigmagnr ∧
      rows.map (fun r => r.isdiffpos) = cisdiffpos ∧
      rows.map (fun r => r.fid) = cfid ∧
      rows.map (fun r => r.jd) = cjd) := by
  constructor
  · intro h
    simp [processAlert, mkSub, if_neg h]
  · intro rows hrows
    by_cases h : lengthsMatch cdistnr cmagpsf csigmapsf cmagnr csigmagnr cisdiffpos cfid cjd
    · rw [mkSub, if_pos h] at hrows
      have hr := Except.ok.inj hrows
      subst hr
      obtain ⟨h1, h2, h3, h4, h5, h6, h7⟩ := h
      refine ⟨⟨h1, h2, h3, h4, h5, h6, h7⟩, by simp, ?_, ?_, ?_, ?_, ?_, ?_, ?_, ?_⟩
      · rw [List.map_map]
        exact range_map_getD cdistnr 0
      · rw [List.map_map, ← h1]
        exact range_map_getD cmagpsf 0
      · rw [List.map_map, ← h2]
        exact range_map_getD csigmapsf 0
      · rw [List.map_map, ← h3]
        exact range_map_getD cmagnr 0
      · rw [List.map_map, ← h4]
        exact range_map_getD csigmagnr 0
      · rw [List.map_map, ← h5]
        exact range_map_getD cisdiffpos 0
      · rw [List.map_map, ← h6]
        exact range_map_getD cfid 0
      · rw [List.map_map, ← h7]
        exact range_map_getD cjd 0
    · rw [mkSub, if_neg h] at hrows
      exact Except.noConfusion hrows

/-- C9 witness: a one-epoch `cdistnr` next to empty remaining columns. -/
theorem C9_length_mismatch_witness :
    processAlert af1 7 "ZTF19C9" [1] [] [] [] [] [] [] [] [] =
      Except.error Err.valueError :=
  (C9_length_mismatch af1 7 "ZTF19C9" [1] [] [] [] [] [] [] [] []).1 (by decide)

/-- C10 counterexample: two catalogs whose matching rows carry different
median arrays are indistinguishable to the code as written (the matched
row's fields are never read: both invocations raise the same NameError),
while the intended median fetch distinguishes them — so the first match's
fields are not, in fact, used. -/
theorem C10_fields_unused_cex :
    standardized_flux_ af1 [mkRow "ZTF19CA" 3 1 1] [mkCat "ZTF19CA" [2]] =
      standardized_flux_ af1 [mkRow "ZTF19CA" 3 1 1] [mkCat "ZTF19CA" [7]] ∧
    standardized_flux_spec af1 [mkRow "ZTF19CA" 3 1 1] [mkCat "ZTF19CA" [2]] ≠
      standardized_flux_spec af1 [mkRow "ZTF19CA" 3 1 1] [mkCat "ZTF19CA" [7]] := by
  constructor
  · rfl
  · have h1 : standardized_flux_spec af1 [mkRow "ZTF19CA" 3 1 1] [mkCat "ZTF19CA" [2]] =
        Except.ok ([some 2500], [some 1000]) := by
      simp [standardized_flux_spec, lookupCTAO, mkRow, mkCat, fluxDC, af1, filterLoop,
        uniqueFids, uniqueAux, maskWrite, npGet, nanList]
      norm_num
    have h2 : standardized_flux_spec af1 [mkRow "ZTF19CA" 3 1 1] [mkCat "ZTF19CA" [7]] =
        Except.ok ([some (5000 / 7)], [some (2000 / 7)]) := by
      simp [standardized_flux_spec, lookupCTAO, mkRow, mkCat, fluxDC, af1, filterLoop,
        uniqueFids, uniqueAux, maskWrite, npGet, nanList]
      norm_num
    rw [h1, h2]
    intro h
    have h3 := Except.ok.inj h
    have h4 := congrArg (fun p => p.1) h3
    simp at h4
    norm_num at h4

/-- C10 amended: the lookup key is the first history row's objectId —
changing only later rows' objectId never changes the output; the code's
result depends on the catalog only through whether the match set for that
key is empty (the matched rows' fields are never read — the C1 defect);
and under the intended median fetch the result with a multi-match catalog
equals the result with the catalog reduced to the first matching row,
whose fields are the ones used. -/
theorem C10_first_row_key :
    (∀ (af : AF) (r0 : Row) (rest rest' : List Row) (cat : List CatRow),
      rest.map stripId = rest'.map stripId →
      standardized_flux_ af (r0 :: rest) cat =
        standardized_flux_ af (r0 :: rest') cat) ∧
    (∀ (af : AF) (pdf : List Row) (cat cat' : List CatRow),
      presentIn pdf cat = presentIn pdf cat' →
      standardized_flux_ af pdf cat = standardized_flux_ af pdf cat') ∧
    (∀ (af : AF) (r0 : Row) (rest : List Row) (cat : List CatRow) (c0 : CatRow)
      (cs : List CatRow), lookupCTAO cat r0.objectId = c0 :: cs →
      standardized_flux_spec af (r0 :: rest) cat =
        standardized_flux_spec af (r0 :: rest) [c0]) := by
  refine ⟨?_, ?_, ?_⟩
  · intro af r0 rest rest' cat h
    have hlen : rest.length = rest'.length := by
      have h2 := congrArg List.length h
      simpa using h2
    simp only [standardized_flux_]
    by_cases hE : (lookupCTAO cat r0.objectId).isEmpty <;>
      simp [hE, nanList, hlen]
  · intro af pdf cat cat' he
    cases pdf with
    | nil => rfl
    | cons r0 rest =>
      simp only [presentIn] at he
      have hee : (lookupCTAO cat r0.objectId).isEmpty =
          (lookupCTAO cat' r0.objectId).isEmpty := by
        have h2 := congrArg Bool.not he
        simpa using h2
      simp only [standardized_flux_]
      rw [hee]
  · intro af r0 rest cat c0 cs hl
    have hmem : c0 ∈ lookupCTAO cat r0.objectId := by
      rw [hl]
      exact List.mem_cons_self _ _
    have hpred : (c0.ztfName == r0.objectId) = true := (List.mem_filter.mp hmem).2
    have hl2 : lookupCTAO [c0] r0.objectId = [c0] := by
      simp [lookupCTAO, List.filter, hpred]
    simp only [standardized_flux_spec, hl, hl2]

/-- C10 witness: concrete instances of the three amended facts. -/
theorem C10_first_row_key_witness :
    standardized_flux_ af1 [mkRow "ZTF19CW" 3 1 1, mkRow "A" 4 1 2]
        [mkCat "ZTF19CW" [2]] =
      standardized_flux_ af1 [mkRow "ZTF19CW" 3 1 1, mkRow "B" 4 1 2]
        [mkCat "ZTF19CW" [2]] ∧
    standardized_flux_ af1 [mkRow "ZTF19CW" 3 1 1] [mkCat "ZTF19CW" [2]] =
      standardized_flux_ af1 [mkRow "ZTF19CW" 3 1 1]
        [mkCat "ZTF19CW" [9], mkCat "X" [1]] ∧
    standardized_flux_spec af1 [mkRow "ZTF19CW" 3 1 1]
        [mkCat "ZTF19CW" [2], mkCat "ZTF19CW" [9]] =
      standardized_flux_spec af1 [mkRow "ZTF19CW" 3 1 1] [mkCat "ZTF19CW" [2]] :=
  ⟨C10_first_row_key.1 af1 (mkRow "ZTF19CW" 3 1 1) [mkRow "A" 4 1 2]
      [mkRow "B" 4 1 2] [mkCat "ZTF19CW" [2]] (by decide),
   C10_first_row_key.2.1 af1 [mkRow "ZTF19CW" 3 1 1] [mkCat "ZTF19CW" [2]]
      [mkCat "ZTF19CW" [9], mkCat "X" [1]] (by decide),
   C10_first_row_key.2.2 af1 (mkRow "ZTF19CW" 3 1 1) []
      [mkCat "ZTF19CW" [2], mkCat "ZTF19CW" [9]] (mkCat "ZTF19CW" [2])
      [mkCat "ZTF19CW" [9]] (by decide)⟩

end FinkStd
